import Mathlib

/-!
Verification of the Smart Vision Guide assistive device (Python sources under
`src/`) against its natural-language specification.  Python strings are
embedded as `List Char`; machine floats used only for comparisons against
constant thresholds are embedded as `ℚ`; fallible values as `Option`.
Each section names the source file and function it embeds.
-/

namespace SVG

/-! ### Python string primitives

Shallow embedding of the Python string operations used by the sources:
`str.lower` (ASCII range, which covers every phrase and message in the
configuration), `str.strip` (default whitespace), and the substring operator
`needle in hay`. -/

/-- ASCII lowering of one character, as `str.lower` acts on the ASCII range. -/
def lowerChar (c : Char) : Char :=
  if 'A' ≤ c ∧ c ≤ 'Z' then Char.ofNat (c.toNat + 32) else c

/-- Embedding of Python `s.lower()` (ASCII range). -/
def pyLower (s : List Char) : List Char := s.map lowerChar

/-- Default whitespace set of Python `str.strip`. -/
def pyIsSpace (c : Char) : Bool :=
  c = ' ' || c = '\t' || c = '\n' || c = '\r' || c.toNat = 11 || c.toNat = 12

/-- Embedding of Python `s.strip()`: drop whitespace from both ends. -/
def pyStrip (s : List Char) : List Char :=
  ((s.dropWhile pyIsSpace).reverse.dropWhile pyIsSpace).reverse

/-- Boolean test that `p` is a leading segment of `s`. -/
def startsWith : List Char → List Char → Bool
  | [], _ => true
  | _ :: _, [] => false
  | a :: as, b :: bs => a = b && startsWith as bs

/-- Embedding of the Python substring operator: `containsSub needle hay`
is `needle in hay`. -/
def containsSub (needle : List Char) : List Char → Bool
  | [] => startsWith needle []
  | c :: t => startsWith needle (c :: t) || containsSub needle t

theorem startsWith_iff (p s : List Char) :
    startsWith p s = true ↔ ∃ r, s = p ++ r := by
  induction p generalizing s with
  | nil => simp [startsWith]
  | cons a as ih =>
    cases s with
    | nil => simp [startsWith]
    | cons b bs =>
      simp only [startsWith, Bool.and_eq_true, decide_eq_true_eq, ih]
      constructor
      · rintro ⟨rfl, r, rfl⟩
        exact ⟨r, rfl⟩
      · rintro ⟨r, h⟩
        cases h
        exact ⟨rfl, r, rfl⟩

theorem containsSub_iff (n s : List Char) :
    containsSub n s = true ↔ ∃ l r, s = l ++ n ++ r := by
  induction s with
  | nil =>
    simp only [containsSub, startsWith_iff]
    constructor
    · rintro ⟨r, h⟩
      exact ⟨[], r, by simpa using h⟩
    · rintro ⟨l, r, h⟩
      rcases List.append_eq_nil.mp h.symm with ⟨h1, h2⟩
      rcases List.append_eq_nil.mp h1 with ⟨h3, h4⟩
      exact ⟨r, by simp [h4, h2]⟩
  | cons c t ih =>
    simp only [containsSub, Bool.or_eq_true, startsWith_iff, ih]
    constructor
    · rintro (⟨r, h⟩ | ⟨l, r, h⟩)
      · exact ⟨[], r, by simpa using h⟩
      · exact ⟨c :: l, r, by simp [h]⟩
    · rintro ⟨l, r, h⟩
      cases l with
      | nil => exact Or.inl ⟨r, by simpa using h⟩
      | cons x xs =>
        right
        refine ⟨xs, r, ?_⟩
        have h' : c :: t = x :: (xs ++ n ++ r) := by simpa using h
        simpa using congrArg List.tail h'

/-- Substring containment is transitive, as for Python `in`. -/
theorem containsSub_trans {a b c : List Char}
    (hab : containsSub a b = true) (hbc : containsSub b c = true) :
    containsSub a c = true := by
  rw [containsSub_iff] at hab hbc ⊢
  obtain ⟨l1, r1, h1⟩ := hab
  obtain ⟨l2, r2, h2⟩ := hbc
  exact ⟨l2 ++ l1, r1 ++ r2, by simp [h2, h1]⟩

/-! ### Configuration (src/config/settings.py)

The command kinds and trigger-phrase table `COMMANDS` (lines 46-55), the
capture interval (line 36), and the system messages `MESSAGES`
(lines 106-121) that the controller speaks. -/

/-- Command categories, one per key of the `COMMANDS` dict, in its
declaration order. -/
inductive CommandKind where
  | activate
  | guide
  | stopGuide
  | readText
  | describe
  | exit
  | chat
  | exitChat
deriving DecidableEq

/-- Embedding of the `COMMANDS` phrase table, entries in the declaration
order of the Python dict (insertion order is iteration order). -/
def COMMANDS : List (CommandKind × List (List Char)) :=
  [ (CommandKind.activate, ["hello vision".data, "hey assistant".data, "hello".data]),
    (CommandKind.guide, ["guide me".data, "start guidance".data, "navigate".data, "help me walk".data]),
    (CommandKind.stopGuide, ["stop guidance".data, "stop guiding".data, "pause".data]),
    (CommandKind.readText, ["read text".data, "read this".data, "what does it say".data, "ocr".data]),
    (CommandKind.describe, ["describe".data, "what is around".data, "what do you see".data, "scene".data]),
    (CommandKind.exit, ["system exit".data, "shutdown".data, "goodbye".data, "bye".data]),
    (CommandKind.chat, ["chat".data, "talk to me".data, "conversation".data]),
    (CommandKind.exitChat, ["exit chat".data, "stop chat".data, "end conversation".data]) ]

/-- Seconds between captures in guidance mode (`CAPTURE_INTERVAL = 3.0`). -/
def CAPTURE_INTERVAL : ℚ := 3

def MESSAGES_activated : List Char :=
  "System activated. Say \x27guide me\x27 for navigation, or \x27describe\x27 for scene description.".data

def MESSAGES_guidance_start : List Char :=
  "Guidance mode started. I\x27ll help you navigate.".data

def MESSAGES_guidance_stop : List Char := "Guidance paused.".data

def MESSAGES_chat_start : List Char :=
  "Chat mode. Ask me anything. Say \x27exit chat\x27 when done.".data

def MESSAGES_chat_end : List Char := "Chat ended. Returning to standby.".data

def MESSAGES_shutdown : List Char := "System shutting down. Goodbye.".data

def MESSAGES_error_camera : List Char := "Camera error. Please check the connection.".data

def MESSAGES_obstacle_warning : List Char := "Warning! Obstacle very close ahead.".data

/-! ### Command router (src/handlers/voice_handler.py, lines 54-71)

`VoiceHandler.parse_command` lowers and strips the transcript, then scans
the phrase table in order; the first category owning a phrase that occurs
as a substring wins, and the original transcript is returned unchanged.
No match returns `none` (Python `None`) with the original transcript. -/

/-- Inner loop of `parse_command`: does any phrase of the category occur in
the lowered, stripped transcript. -/
def matchesPhrases (phrases : List (List Char)) (tl : List Char) : Bool :=
  phrases.any (fun phrase => containsSub phrase tl)

/-- Scan of the phrase table in declaration order. -/
def findCommand : List (CommandKind × List (List Char)) → List Char → Option CommandKind
  | [], _ => none
  | (k, phrases) :: rest, tl =>
    if matchesPhrases phrases tl then some k else findCommand rest tl

/-- Embedding of `VoiceHandler.parse_command`. -/
def parse_command (transcript : List Char) : Option CommandKind × List Char :=
  (findCommand COMMANDS (pyStrip (pyLower transcript)), transcript)

theorem findCommand_append_none (pre rest : List (CommandKind × List (List Char)))
    (tl : List Char) (h : ∀ e ∈ pre, matchesPhrases e.2 tl = false) :
    findCommand (pre ++ rest) tl = findCommand rest tl := by
  induction pre with
  | nil => rfl
  | cons e pre ih =>
    obtain ⟨k, phrases⟩ := e
    have he := h _ (List.mem_cons_self _ _)
    simp only [List.cons_append, findCommand, he, Bool.false_eq_true, if_false]
    exact ih (fun e' he' => h e' (List.mem_cons_of_mem _ he'))

theorem findCommand_eq_none (tbl : List (CommandKind × List (List Char)))
    (tl : List Char) (h : ∀ e ∈ tbl, matchesPhrases e.2 tl = false) :
    findCommand tbl tl = none := by
  have := findCommand_append_none tbl [] tl h
  simpa using this

/-! ### Buzzer tiering (src/handlers/gpio_handler.py, lines 192-209)

`GPIOHandler.alert_by_distance` drives the buzzer from a measured distance.
Its two thresholds are imported from `config.settings` (gpio_handler.py
lines 20-28), and distances are compared as floats; threshold comparisons
are embedded over `ℚ`. -/

/-- Modelled from the spec: `OBSTACLE_CRITICAL_DISTANCE` is imported by
gpio_handler.py from config.settings but no definition of it appears in
src/config/settings.py; the spec gives the critical threshold as 15 (cm). -/
def OBSTACLE_CRITICAL_DISTANCE : ℚ := 15

/-- Modelled from the spec: `OBSTACLE_DISTANCE_THRESHOLD` is imported by
gpio_handler.py from config.settings but no definition of it appears in
src/config/settings.py; the spec gives the warning threshold as 30 (cm). -/
def OBSTACLE_DISTANCE_THRESHOLD : ℚ := 30

/-- One observable buzzer event: the buzzer held on for a duration
(`beep(duration)`), or a silent gap (`time.sleep(duration)` between beeps). -/
inductive BuzzEvent where
  | beepOn (duration : ℚ)
  | gap (duration : ℚ)
deriving DecidableEq

/-- Embedding of `GPIOHandler.alert_by_distance`: critical distances give
two short pulses separated by a gap, warning distances one pulse, anything
else (including a `None` reading) nothing. -/
def alert_by_distance (distance : Option ℚ) : List BuzzEvent :=
  match distance with
  | none => []
  | some d =>
    if d < OBSTACLE_CRITICAL_DISTANCE then
      [BuzzEvent.beepOn (1/10), BuzzEvent.gap (1/20), BuzzEvent.beepOn (1/10)]
    else if d < OBSTACLE_DISTANCE_THRESHOLD then
      [BuzzEvent.beepOn (1/10)]
    else
      []

/-! ### Speech requests (src/handlers/audio_handler.py, `speak` signature)

A speech request as produced by callers of `speak(text, block)`. -/

structure SpeechRequest where
  text : List Char
  block : Bool
deriving DecidableEq

/-! ### Obstacle monitor (src/main.py, lines 225-244)

One cycle of `SmartVisionGuide._ultrasonic_loop` with its `last_warning_time`
state (initialized to 0): each valid sample drives `alert_by_distance`, and
a spoken warning (`speak(MESSAGES["obstacle_warning"], block=False)`) fires
when `distance < 20 and (time.time() - last_warning_time) > 3`, refreshing
the timestamp.  `now` is the sampling time in seconds. -/

def ultrasonic_cycle (last_warning_time : ℚ) (now : ℚ) (distance : Option ℚ) :
    ℚ × Bool × List BuzzEvent :=
  match distance with
  | none => (last_warning_time, false, [])
  | some d =>
    let buzz := alert_by_distance (some d)
    if d < 20 ∧ now - last_warning_time > 3 then
      (now, true, buzz)
    else
      (last_warning_time, false, buzz)

/-- Fold of `ultrasonic_cycle` over a timed sample trace; returns whether a
spoken warning was emitted at each sample. -/
def run_ultrasonic (last_warning_time : ℚ) :
    List (ℚ × Option ℚ) → List Bool
  | [] => []
  | (now, d) :: rest =>
    let r := ultrasonic_cycle last_warning_time now d
    r.2.1 :: run_ultrasonic r.1 rest

/-! ### Guidance worker (src/main.py, lines 193-223)

One cycle of `SmartVisionGuide._guidance_loop`: capture a frame; on success
ask `gemini.get_navigation_guidance` and, when the result is non-empty and
does not contain "no obstacle" (case-insensitive), call `speak(result)` —
with the default `block=True`.  The camera result and the vision service
are the external collaborators and enter as parameters. -/

/-- Frames are opaque to the controller. -/
abbrev Frame := ℕ

/-- Speech requests issued by one guidance cycle. -/
def guidance_cycle (frame : Option Frame) (nav : Frame → List Char) :
    List SpeechRequest :=
  match frame with
  | none => []
  | some f =>
    let result := nav f
    if !result.isEmpty && !containsSub ("no obstacle".data) (pyLower result) then
      [⟨result, true⟩]
    else
      []

/-- Cadence computation of the guidance loop (line 216):
`sleep_time = max(CAPTURE_INTERVAL - elapsed, 0)`. -/
def guidance_sleep_time (elapsed : ℚ) : ℚ :=
  max (CAPTURE_INTERVAL - elapsed) 0

/-- Sliced sleep of the guidance loop (lines 219-221): the sleep budget,
discretized into 100 ms slices, is consumed one slice at a time and the
guidance cancellation event is re-read before every slice; `ev_guidance i`
is the value the event poll at index `i` observes.  Returns the number of
100 ms slices actually slept. -/
def guidance_sleep_loop (ev_guidance : ℕ → Bool) : ℕ → ℕ → ℕ
  | 0, _ => 0
  | n + 1, i => if ev_guidance i then guidance_sleep_loop ev_guidance n (i + 1) + 1 else 0

/-! ### Audio handler interleavings (src/handlers/audio_handler.py)

Small-step model of `AudioHandler`.  Per-instance state is `is_speaking`,
`interrupt_flag` and the `_speak_sync` executions in flight.  `speak(text,
block)` (lines 24-43) rejects empty or whitespace-only text, clears the
interrupt flag, and then runs `_speak_sync` — inline when `block=True`,
on a freshly spawned thread when `block=False`.  Each `_speak_sync`
execution (lines 45-116) sets `is_speaking`, synthesizes the audio file,
starts the player subprocess (`Popen`, line 85 — from which point the
utterance is audible), polls until the process exits, and finally clears
`is_speaking`.  No step of `_speak_sync` acquires a lock or inspects other
executions, so the only scheduling constraints are each execution's own
program order; the model exposes exactly those steps. -/

/-- Phase of one `_speak_sync` execution: spawned but not yet playing,
player subprocess running (audible), or finished. -/
inductive SpeakPhase where
  | entered
  | playing
  | finished
deriving DecidableEq

structure SpeakThread where
  text : List Char
  phase : SpeakPhase
deriving DecidableEq

structure AudioState where
  is_speaking : Bool
  interrupt_flag : Bool
  threads : List SpeakThread
deriving DecidableEq

def initAudioState : AudioState := ⟨false, false, []⟩

/-- Scheduler steps: a `speak` call (lines 24-43), the audible start of one
`_speak_sync` execution (lines 47-89, ending in `Popen`), and its
completion (lines 92-109, process exit plus the `finally` block). -/
inductive AudioOp where
  | speakCall (text : List Char) (block : Bool)
  | beginPlayback (i : ℕ)
  | endPlayback (i : ℕ)

def setPhase : List SpeakThread → ℕ → SpeakPhase → List SpeakThread
  | [], _, _ => []
  | th :: rest, 0, p => { th with phase := p } :: rest
  | th :: rest, n + 1, p => th :: setPhase rest n p

/-- One atomic step; an op whose precondition (thread exists and is in the
right phase) fails leaves the state unchanged. -/
def audioStep (s : AudioState) : AudioOp → AudioState
  | AudioOp.speakCall text _blockFlag =>
    if (pyStrip text).isEmpty then s
    else { s with interrupt_flag := false,
                  threads := s.threads ++ [⟨text, SpeakPhase.entered⟩] }
  | AudioOp.beginPlayback i =>
    match s.threads.get? i with
    | some th =>
      if th.phase = SpeakPhase.entered then
        { s with is_speaking := true, threads := setPhase s.threads i SpeakPhase.playing }
      else s
    | none => s
  | AudioOp.endPlayback i =>
    match s.threads.get? i with
    | some th =>
      if th.phase = SpeakPhase.playing then
        { s with is_speaking := false, threads := setPhase s.threads i SpeakPhase.finished }
      else s
    | none => s

def audioRun (ops : List AudioOp) : AudioState :=
  ops.foldl audioStep initAudioState

/-- A state the audio handler can be driven into by some interleaving. -/
def AudioReachable (s : AudioState) : Prop :=
  ∃ ops : List AudioOp, audioRun ops = s

/-- Number of simultaneously audible utterances. -/
def audibleCount (s : AudioState) : ℕ :=
  (s.threads.filter (fun th => th.phase = SpeakPhase.playing)).length

/-! ### Session controller (src/main.py, class SmartVisionGuide)

Command-level embedding of `handle_voice_command` (lines 121-166) and the
methods it dispatches to.  The state carries exactly the attributes of the
Python object: the boolean flags and the three `threading.Event`s.
External collaborators (camera, vision service) enter through an
environment record; their invocations, all `speak` calls, and every
`threading.Thread(...).start()` are recorded as an action list.  Worker
thread lifetimes are modelled separately below (`SysState`), since
`stop_guidance` only clears the cancellation event and never joins the
threads. -/

structure Env where
  frame : Option Frame
  nav : Frame → List Char
  ocr : Frame → List Char
  describeScene : Frame → List Char
  chatReply : List Char → Option Frame → List Char

inductive Action where
  | speak (text : List Char) (block : Bool)
  | spawnGuidanceThread
  | spawnUltrasonicThread
  | stopVoice
  | stopAudio
  | gpioCleanup
  | processExit
deriving DecidableEq

structure SVGState where
  running : Bool
  system_active : Bool
  guidance_active : Bool
  chat_active : Bool
  ev_running : Bool
  ev_guidance : Bool
  ev_chat : Bool
deriving DecidableEq

/-- State after `__init__` and `run` have set the running flag and event. -/
def initState : SVGState :=
  ⟨true, false, false, false, true, false, false⟩

/-- Embedding of `start_guidance` (lines 168-185): a no-op when the
guidance event is already set, otherwise speak, set the event and flag,
and spawn both worker threads. -/
def start_guidance (s : SVGState) : SVGState × List Action :=
  if s.ev_guidance then (s, [])
  else
    ({ s with ev_guidance := true, guidance_active := true },
     [Action.speak MESSAGES_guidance_start true,
      Action.spawnGuidanceThread, Action.spawnUltrasonicThread])

/-- Embedding of `stop_guidance` (lines 187-191): clear the guidance event
and flag and speak; the worker threads are not joined or otherwise
touched — they observe the cleared event only at their own checks. -/
def stop_guidance (s : SVGState) : SVGState × List Action :=
  ({ s with ev_guidance := false, guidance_active := false },
   [Action.speak MESSAGES_guidance_stop true])

/-- Embedding of `read_text` (lines 246-257). -/
def read_text (env : Env) (s : SVGState) : SVGState × List Action :=
  (s, Action.speak ("Reading text...".data) true ::
    (match env.frame with
     | some f => [Action.speak (env.ocr f) true]
     | none => [Action.speak MESSAGES_error_camera true]))

/-- Embedding of `describe_scene` (lines 259-270). -/
def describe_scene (env : Env) (s : SVGState) : SVGState × List Action :=
  (s, Action.speak ("Analyzing scene...".data) true ::
    (match env.frame with
     | some f => [Action.speak (env.describeScene f) true]
     | none => [Action.speak MESSAGES_error_camera true]))

/-- Embedding of `start_chat` (lines 272-276). -/
def start_chat (s : SVGState) : SVGState × List Action :=
  ({ s with chat_active := true, ev_chat := true },
   [Action.speak MESSAGES_chat_start true])

/-- Embedding of `stop_chat` (lines 278-282). -/
def stop_chat (s : SVGState) : SVGState × List Action :=
  ({ s with chat_active := false, ev_chat := false },
   [Action.speak MESSAGES_chat_end true])

/-- Embedding of `handle_chat_input` (lines 284-291). -/
def handle_chat_input (env : Env) (s : SVGState) (text : List Char) :
    SVGState × List Action :=
  (s, [Action.speak (env.chatReply text env.frame) true])

/-- Embedding of `shutdown` (lines 324-347): clear the running flag and all
events, stop voice and audio, clean up GPIO, exit. -/
def shutdown (s : SVGState) : SVGState × List Action :=
  ({ s with running := false, ev_running := false, ev_guidance := false,
            ev_chat := false },
   [Action.stopVoice, Action.stopAudio, Action.gpioCleanup, Action.processExit])

/-- Embedding of `handle_voice_command` (lines 121-166). -/
def handle_voice_command (env : Env) (s : SVGState)
    (command_type : Option CommandKind) (transcript : List Char) :
    SVGState × List Action :=
  if command_type = some CommandKind.activate then
    ({ s with system_active := true }, [Action.speak MESSAGES_activated true])
  else if !s.system_active then
    (s, [])
  else
    match command_type with
    | some CommandKind.guide => start_guidance s
    | some CommandKind.stopGuide => stop_guidance s
    | some CommandKind.readText => read_text env s
    | some CommandKind.describe => describe_scene env s
    | some CommandKind.chat => start_chat s
    | some CommandKind.exitChat => stop_chat s
    | some CommandKind.exit =>
      let r := shutdown s
      (r.1, Action.speak MESSAGES_shutdown true :: r.2)
    | some CommandKind.activate => (s, [])
    | none =>
      if s.chat_active then handle_chat_input env s transcript else (s, [])

/-! ### Worker thread lifetimes (src/main.py, lines 193-244)

`_guidance_loop` (lines 193-223) and `_ultrasonic_loop` (lines 225-244)
both run `while running_event.is_set() and guidance_event.is_set()`:
the events are read at the loop top (and again inside the guidance sleep
slices), but never during the cycle body — a body spans a camera capture,
a vision request with a 30 s timeout and a blocking `speak`, during which
a cleared event goes unobserved.  Since `stop_guidance` only clears the
event and never joins the threads, a worker that is mid-body across a
StopGuide/Guide pair survives, because at its next check the event has
already been set again.  The model below interleaves `handle_voice_command`
with per-worker steps: a loop-condition check (exiting when either event
is cleared; this also stands for the event reads inside the guidance sleep
slices, whose omission only removes exit opportunities) and a body
completion returning to the check.  A `Guide` command materializes the two
`Thread(...).start()` actions as fresh workers parked at their first
check. -/

inductive WorkerPhase where
  | atCheck
  | inBody
  | exited
deriving DecidableEq

/-- Loop-top check of a worker: continue into the body while both events
are set, exit otherwise. -/
def workerCheck (ok : Bool) : WorkerPhase → WorkerPhase
  | WorkerPhase.atCheck => if ok then WorkerPhase.inBody else WorkerPhase.exited
  | p => p

/-- Completion of one cycle body, returning to the loop-top check. -/
def workerBody : WorkerPhase → WorkerPhase
  | WorkerPhase.inBody => WorkerPhase.atCheck
  | p => p

def updateAt : List WorkerPhase → ℕ → (WorkerPhase → WorkerPhase) → List WorkerPhase
  | [], _, _ => []
  | w :: rest, 0, f => f w :: rest
  | w :: rest, n + 1, f => w :: updateAt rest n f

/-- Number of occurrences of one action in an action list. -/
def countSpawns (a : Action) : List Action → ℕ
  | [] => 0
  | b :: rest => (if b = a then 1 else 0) + countSpawns a rest

/-- Controller state together with every spawned guidance / ultrasonic
worker thread and its phase. -/
structure SysState where
  ctrl : SVGState
  gworkers : List WorkerPhase
  uworkers : List WorkerPhase
deriving DecidableEq

def sysInit : SysState := ⟨initState, [], []⟩

/-- Scheduler steps: a routed command handled on the control thread, or
one worker advancing through its own loop. -/
inductive SysOp where
  | cmd (c : Option CommandKind) (t : List Char)
  | gCheck (i : ℕ)
  | gBody (i : ℕ)
  | uCheck (i : ℕ)
  | uBody (i : ℕ)

def sysStep (env : Env) (s : SysState) : SysOp → SysState
  | SysOp.cmd c t =>
    let r := handle_voice_command env s.ctrl c t
    { ctrl := r.1,
      gworkers := s.gworkers ++
        List.replicate (countSpawns Action.spawnGuidanceThread r.2) WorkerPhase.atCheck,
      uworkers := s.uworkers ++
        List.replicate (countSpawns Action.spawnUltrasonicThread r.2) WorkerPhase.atCheck }
  | SysOp.gCheck i =>
    { s with gworkers :=
        updateAt s.gworkers i (workerCheck (s.ctrl.ev_running && s.ctrl.ev_guidance)) }
  | SysOp.gBody i =>
    { s with gworkers := updateAt s.gworkers i workerBody }
  | SysOp.uCheck i =>
    { s with uworkers :=
        updateAt s.uworkers i (workerCheck (s.ctrl.ev_running && s.ctrl.ev_guidance)) }
  | SysOp.uBody i =>
    { s with uworkers := updateAt s.uworkers i workerBody }

def sysRun (env : Env) (ops : List SysOp) : SysState :=
  ops.foldl (sysStep env) sysInit

/-- A state the controller plus its workers can be driven into by some
environment and interleaving. -/
def SysReachable (s : SysState) : Prop :=
  ∃ (env : Env) (ops : List SysOp), sysRun env ops = s

/-- Number of live (spawned and not yet exited) workers. -/
def liveWorkers (ws : List WorkerPhase) : ℕ :=
  (ws.filter (fun w => match w with
    | WorkerPhase.exited => false
    | _ => true)).length

/-! ### Vision / chat service handler (src/handlers/gemini_handler.py)

`GeminiHandler.analyze_image` (lines 136-153) and `GeminiHandler.chat`
(lines 155-169) post to the OpenRouter endpoint and parse the JSON reply
with `_extract_text_from_response` (lines 97-134).  The JSON value the
transport layer hands back is embedded as `PyVal` (`resp.json()` output, or
`none` when `_post_chat` failed); frame JPEG encoding enters as a
parameter.  Inside `_extract_text_from_response`, any exception
(`AttributeError` from `.get` on a non-dict, `IndexError` from
`content[0]`, `.strip()` on a non-string, `len` on a number) is caught by
the surrounding `except` and turns the whole call into `None`. -/

/-- Python values as they appear in a decoded JSON response. -/
inductive PyVal where
  | pnone
  | pstr (s : List Char)
  | pnum (q : ℚ)
  | plist (xs : List PyVal)
  | pdict (kvs : List (List Char × PyVal))

/-- Python truthiness of the values above. -/
def pyTruthy : PyVal → Bool
  | PyVal.pnone => false
  | PyVal.pstr s => !s.isEmpty
  | PyVal.pnum q => q ≠ 0
  | PyVal.plist xs => !xs.isEmpty
  | PyVal.pdict kvs => !kvs.isEmpty

/-- Python `d.get(key)`: the stored value, or `None` when absent. -/
def dGet (kvs : List (List Char × PyVal)) (key : List Char) : PyVal :=
  match kvs.find? (fun p => p.1 = key) with
  | some p => p.2
  | none => PyVal.pnone

/-- Python `d` contains `key`. -/
def hasKey (kvs : List (List Char × PyVal)) (key : List Char) : Bool :=
  (kvs.find? (fun p => p.1 = key)).isSome

/-- Python `a or b`. -/
def pyOr (a b : PyVal) : PyVal := if pyTruthy a then a else b

/-- Outcome of a fragment of `_extract_text_from_response`: an early
`return txt.strip()`, an exception (caught by the outer `except`), or
normal fall-through to the following code. -/
inductive ExtractRes where
  | found (t : List Char)
  | raised
  | fellThrough

/-- Python `txt.strip()` on a truthy `txt` that may not be a string:
a non-string raises. -/
def stripReturn (txt : PyVal) : ExtractRes :=
  match txt with
  | PyVal.pstr s => ExtractRes.found (pyStrip s)
  | _ => ExtractRes.raised

/-- Inner loop over `content` items (lines 110-114): each item must be a
dict (`.get` on anything else raises); items typed `output_text`/`text`
with truthy `text`-or-`content` return it stripped. -/
def scanItems : List PyVal → ExtractRes
  | [] => ExtractRes.fellThrough
  | item :: rest =>
    match item with
    | PyVal.pdict ikvs =>
      let tyMatches := match dGet ikvs ("type".data) with
        | PyVal.pstr s => s = ("output_text".data) || s = ("text".data)
        | _ => false
      if tyMatches then
        let txt := pyOr (dGet ikvs ("text".data)) (dGet ikvs ("content".data))
        if pyTruthy txt then stripReturn txt else scanItems rest
      else scanItems rest
    | _ => ExtractRes.raised

/-- Handling of one choice (lines 105-120): `message = choice.get('message')
or` an empty dict, `content = message.get('content')` when `message` is a
dict; a list `content` is scanned and then its first element (raising on an
empty list) gets the fallback `text`-or-`content` treatment. -/
def handleChoice (choice : PyVal) : ExtractRes :=
  match choice with
  | PyVal.pdict ckvs =>
    let message := pyOr (dGet ckvs ("message".data)) (PyVal.pdict [])
    let content := match message with
      | PyVal.pdict mkvs => dGet mkvs ("content".data)
      | _ => PyVal.pnone
    match content with
    | PyVal.plist items =>
      match scanItems items with
      | ExtractRes.found t => ExtractRes.found t
      | ExtractRes.raised => ExtractRes.raised
      | ExtractRes.fellThrough =>
        match items with
        | [] => ExtractRes.raised
        | first :: _ =>
          match first with
          | PyVal.pdict fkvs =>
            let txt := pyOr (dGet fkvs ("text".data)) (dGet fkvs ("content".data))
            if pyTruthy txt then stripReturn txt else ExtractRes.fellThrough
          | _ => ExtractRes.fellThrough
    | _ => ExtractRes.fellThrough
  | _ => ExtractRes.raised

/-- Loop over the choices (line 105). -/
def scanChoices : List PyVal → ExtractRes
  | [] => ExtractRes.fellThrough
  | c :: rest =>
    match handleChoice c with
    | ExtractRes.fellThrough => scanChoices rest
    | r => r

/-- Top-level `'output'` / `'result'` fallbacks (lines 123-129). -/
def outputResultCheck (kvs : List (List Char × PyVal)) : Option (List Char) :=
  let resultCase : Option (List Char) :=
    if hasKey kvs ("result".data) then
      match dGet kvs ("result".data) with
      | PyVal.pstr s => some (pyStrip s)
      | _ => none
    else none
  if hasKey kvs ("output".data) then
    match dGet kvs ("output".data) with
    | PyVal.pstr s => some (pyStrip s)
    | _ => resultCase
  else resultCase

/-- Embedding of `GeminiHandler._extract_text_from_response`. -/
def extract_text_from_response (resp : Option PyVal) : Option (List Char) :=
  match resp with
  | none => none
  | some v =>
    if !pyTruthy v then none
    else
      let choices := match v with
        | PyVal.pdict kvs => dGet kvs ("choices".data)
        | _ => PyVal.pnone
      let afterChoices :=
        if pyTruthy choices then
          match choices with
          | PyVal.plist xs => scanChoices xs
          | _ => ExtractRes.raised
        else ExtractRes.fellThrough
      match afterChoices with
      | ExtractRes.found t => some t
      | ExtractRes.raised => none
      | ExtractRes.fellThrough =>
        match v with
        | PyVal.pdict kvs => outputResultCheck kvs
        | _ => none

/-- Final cleanup on the success path of `analyze_image` / `chat`:
`text.replace(asterisk, empty).replace(hash, empty).replace(backtick,
empty)` deletes every occurrence of the three characters. -/
def cleanup_text (t : List Char) : List Char :=
  t.filter (fun c => !(c = '*' ∨ c = '#' ∨ c = Char.ofNat 96))

/-- Embedding of `GeminiHandler.analyze_image`; `encode` stands for
`_encode_frame` (JPEG bytes or a failure) and `resp` for the JSON the
endpoint returned (`None` when `_post_chat` failed).  The `mode` selects
only the prompt sent out, never the shape of the return value. -/
def analyze_image (frame : Option Frame) (encode : Frame → Option (List ℕ))
    (resp : Option PyVal) : List Char :=
  match frame with
  | none => "No image captured.".data
  | some f =>
    match encode f with
    | none => "Error processing image.".data
    | some jpeg =>
      if jpeg.isEmpty then "Error processing image.".data
      else
        match extract_text_from_response resp with
        | none => "Sorry, I couldn\x27t analyze the scene. Please try again.".data
        | some t =>
          if t.isEmpty then "Sorry, I couldn\x27t analyze the scene. Please try again.".data
          else cleanup_text t

/-- Embedding of `GeminiHandler.chat`: the reply text depends only on the
response; a missing or unencodable context frame only drops the image from
the request. -/
def gemini_chat (_user_message : List Char) (_context_frame : Option Frame)
    (_encode : Frame → Option (List ℕ)) (resp : Option PyVal) : List Char :=
  match extract_text_from_response resp with
  | none => "Sorry, I couldn\x27t process that. Please try again.".data
  | some t =>
    if t.isEmpty then "Sorry, I couldn\x27t process that. Please try again.".data
    else cleanup_text t

/-! ## Claims -/

/-- C1: for every transcript, `parse_command` performs a case-insensitive,
whitespace-trimmed substring search against every phrase in the table in
declaration order and returns the first command kind owning a matching
phrase, paired with the original (unmodified) transcript; with no matching
phrase it returns `none` (Unmatched) with the original transcript, and in
particular `parse_command "banana"` is Unmatched with transcript
"banana". -/
theorem parse_command_first_match_spec :
    (∀ (t : List Char) (pre : List (CommandKind × List (List Char)))
       (k : CommandKind) (phrases : List (List Char))
       (post : List (CommandKind × List (List Char))),
       COMMANDS = pre ++ (k, phrases) :: post →
       matchesPhrases phrases (pyStrip (pyLower t)) = true →
       (∀ e ∈ pre, matchesPhrases e.2 (pyStrip (pyLower t)) = false) →
       parse_command t = (some k, t))
    ∧ (∀ t : List Char,
       (∀ e ∈ COMMANDS, matchesPhrases e.2 (pyStrip (pyLower t)) = false) →
       parse_command t = (none, t))
    ∧ parse_command ("banana".data) = (none, "banana".data) := by
  refine ⟨?_, ?_, by decide⟩
  · intro t pre k phrases post hC hmatch hpre
    unfold parse_command
    rw [hC, findCommand_append_none pre _ _ hpre]
    simp [findCommand, hmatch]
  · intro t h
    unfold parse_command
    rw [findCommand_eq_none _ _ h]

/-- C1 witness: the transcript "hello vision" matches a phrase of the first
table entry (activate) and no earlier entry, so the theorem yields the
concrete routing. -/
theorem parse_command_first_match_spec_witness :
    parse_command ("hello vision".data) =
      (some CommandKind.activate, "hello vision".data) :=
  parse_command_first_match_spec.1 ("hello vision".data) []
    CommandKind.activate
    ["hello vision".data, "hey assistant".data, "hello".data]
    (COMMANDS.tail) rfl (by decide) (by simp)

/-- C2: every configured exit_chat trigger phrase ("exit chat", "stop chat",
"end conversation") routes to the chat command, because each contains a
phrase of the earlier-declared chat category; moreover no transcript at all
can route to exit_chat, so the ExitChat command is unreachable through its
own phrases. -/
theorem exit_chat_unreachable :
    (∀ p ∈ [("exit chat".data), ("stop chat".data), ("end conversation".data)],
       (parse_command p).1 = some CommandKind.chat)
    ∧ (∀ t : List Char, (parse_command t).1 ≠ some CommandKind.exitChat) := by
  refine ⟨by decide, ?_⟩
  intro t h
  unfold parse_command at h
  simp only at h
  set tl := pyStrip (pyLower t) with htl
  simp only [COMMANDS, findCommand] at h
  split_ifs at h with h1 h2 h3 h4 h5 h6 h7 h8 <;>
    try exact absurd h (by decide)
  -- remaining branch: every earlier category failed, in particular chat
  -- (h7), while some exit_chat phrase occurs in the transcript (h8)
  simp only [matchesPhrases, List.any_cons, List.any_nil, Bool.or_eq_true,
    Bool.false_eq_true, or_false, not_or] at h7 h8
  obtain ⟨hc1, hc2, hc3⟩ := h7
  rcases h8 with he | he | he
  · exact hc1 (containsSub_trans (by decide) he)
  · exact hc1 (containsSub_trans (by decide) he)
  · exact hc3 (containsSub_trans (by decide) he)

/-- C2 witness: the theorem applied to the concrete phrase "exit chat". -/
theorem exit_chat_unreachable_witness :
    (parse_command ("exit chat".data)).1 = some CommandKind.chat ∧
    (parse_command ("stop chat".data)).1 ≠ some CommandKind.exitChat :=
  ⟨exit_chat_unreachable.1 ("exit chat".data) (by simp),
   exit_chat_unreachable.2 ("stop chat".data)⟩

/-- C3: buzzer tiering of the obstacle monitor: a distance below the
critical threshold drives the two-pulse critical pattern, a distance
between the critical and warning thresholds drives a single beep, and a
distance at or above the warning threshold drives no buzz. -/
theorem alert_by_distance_tiering (d : ℚ) :
    (d < OBSTACLE_CRITICAL_DISTANCE →
      alert_by_distance (some d) =
        [BuzzEvent.beepOn (1/10), BuzzEvent.gap (1/20), BuzzEvent.beepOn (1/10)])
    ∧ (OBSTACLE_CRITICAL_DISTANCE ≤ d → d < OBSTACLE_DISTANCE_THRESHOLD →
      alert_by_distance (some d) = [BuzzEvent.beepOn (1/10)])
    ∧ (OBSTACLE_DISTANCE_THRESHOLD ≤ d → alert_by_distance (some d) = []) := by
  refine ⟨fun h => ?_, fun h1 h2 => ?_, fun h => ?_⟩
  · simp [alert_by_distance, h]
  · simp [alert_by_distance, not_lt.mpr h1, h2]
  · have h15 : ¬ d < OBSTACLE_CRITICAL_DISTANCE := by
      rw [OBSTACLE_CRITICAL_DISTANCE]
      rw [OBSTACLE_DISTANCE_THRESHOLD] at h
      intro hlt
      linarith
    have h30 : ¬ d < OBSTACLE_DISTANCE_THRESHOLD := not_lt.mpr h
    simp [alert_by_distance, h15, h30]

/-- C3 witness: distances 5 (critical pattern), 25 (single beep) and
100 (silent) under the theorem. -/
theorem alert_by_distance_tiering_witness :
    alert_by_distance (some 5) =
      [BuzzEvent.beepOn (1/10), BuzzEvent.gap (1/20), BuzzEvent.beepOn (1/10)] ∧
    alert_by_distance (some 25) = [BuzzEvent.beepOn (1/10)] ∧
    alert_by_distance (some 100) = [] :=
  ⟨(alert_by_distance_tiering 5).1 (by norm_num [OBSTACLE_CRITICAL_DISTANCE]),
   (alert_by_distance_tiering 25).2.1
     (by norm_num [OBSTACLE_CRITICAL_DISTANCE])
     (by norm_num [OBSTACLE_DISTANCE_THRESHOLD]),
   (alert_by_distance_tiering 100).2.2 (by norm_num [OBSTACLE_DISTANCE_THRESHOLD])⟩

/-- Interleaving used against C4: two non-blocking `speak` calls, then both
spawned `_speak_sync` executions reach their `Popen` before either player
process exits. -/
def overlapScript : List AudioOp :=
  [AudioOp.speakCall ("hello".data) false,
   AudioOp.speakCall ("world".data) false,
   AudioOp.beginPlayback 0,
   AudioOp.beginPlayback 1]

/-- C4 counterexample: the audio handler has no mutual-exclusion guard, so
the claim that at most one utterance is audible at a time is false — the
concrete interleaving `overlapScript` reaches a state with two
simultaneously audible utterances. -/
theorem audio_overlap_counterexample :
    ¬ (∀ s : AudioState, AudioReachable s → audibleCount s ≤ 1) := by
  intro hclaim
  have h := hclaim (audioRun overlapScript) ⟨overlapScript, rfl⟩
  exact absurd h (by decide)

/-- C4 amended: `_speak_sync` acquires no mutual-exclusion guard before
producing audio, so for any two non-blocking requests with non-whitespace
text there is an interleaving under which both utterances are audible at
the same time; nothing serializes speech output. -/
theorem audio_no_mutual_exclusion (t1 t2 : List Char)
    (h1 : (pyStrip t1).isEmpty = false) (h2 : (pyStrip t2).isEmpty = false) :
    ∃ s : AudioState, AudioReachable s ∧ audibleCount s = 2 := by
  refine ⟨audioRun [AudioOp.speakCall t1 false, AudioOp.speakCall t2 false,
                    AudioOp.beginPlayback 0, AudioOp.beginPlayback 1],
          ⟨_, rfl⟩, ?_⟩
  simp [audioRun, audioStep, h1, h2, initAudioState, setPhase, audibleCount,
    List.get?, List.filter]

/-- C4 amended witness: the overlap at the concrete texts "hello" and
"world". -/
theorem audio_no_mutual_exclusion_witness :
    ∃ s : AudioState, AudioReachable s ∧ audibleCount s = 2 :=
  audio_no_mutual_exclusion ("hello".data) ("world".data) (by decide) (by decide)

/-- Concrete environment with no camera frame and empty service replies. -/
def env0 : Env :=
  ⟨none, fun _ => [], fun _ => [], fun _ => [], fun _ _ => []⟩

/-- Interleaving used against C5: Activate; Guide (spawns the first worker
pair); both workers pass their loop-top check and are mid-body (a cycle
body spans a camera capture, a vision request with a 30 s timeout and a
blocking speak); StopGuide clears the guidance event without joining them;
Guide finds the event cleared and spawns a second worker pair while the
first is still live. -/
def stopThenGuideOps : List SysOp :=
  [SysOp.cmd (some CommandKind.activate) [],
   SysOp.cmd (some CommandKind.guide) [],
   SysOp.gCheck 0,
   SysOp.uCheck 0,
   SysOp.cmd (some CommandKind.stopGuide) [],
   SysOp.cmd (some CommandKind.guide) []]

/-- C5 counterexample: the at-most-one-live-instance invariant is not
preserved by every command — `stop_guidance` only clears the cancellation
event and never joins the workers, so the concrete interleaving
`stopThenGuideOps` (a StopGuide/Guide pair issued while the first workers
are mid-cycle) reaches a state with two live GuidanceWorkers and two live
ObstacleMonitors. -/
theorem stop_then_guide_two_workers_counterexample :
    ∃ s : SysState, SysReachable s ∧
      ¬ (liveWorkers s.gworkers ≤ 1 ∧ liveWorkers s.uworkers ≤ 1) :=
  ⟨sysRun env0 stopThenGuideOps, ⟨env0, stopThenGuideOps, rfl⟩, by decide⟩

/-- C5 amended: issuing Guide while the guidance event is set is a no-op
(state unchanged, no worker spawned), and issuing Guide twice in
succession from the activated idle state results in exactly one live
GuidanceWorker and one live ObstacleMonitor; the at-most-one-live-instance
invariant is, however, not preserved by every command, since a
StopGuide-then-Guide pair around a mid-cycle worker leaves two live
instances of each. -/
theorem guide_twice_single_worker :
    (∀ (env : Env) (s : SysState) (t : List Char),
       s.ctrl.ev_guidance = true → s.ctrl.system_active = true →
       sysStep env s (SysOp.cmd (some CommandKind.guide) t) = s)
    ∧ (∀ (env : Env) (t1 t2 t3 : List Char),
       sysStep env
           (sysRun env [SysOp.cmd (some CommandKind.activate) t1,
                        SysOp.cmd (some CommandKind.guide) t2])
           (SysOp.cmd (some CommandKind.guide) t3)
         = sysRun env [SysOp.cmd (some CommandKind.activate) t1,
                       SysOp.cmd (some CommandKind.guide) t2]
       ∧ liveWorkers (sysRun env [SysOp.cmd (some CommandKind.activate) t1,
                        SysOp.cmd (some CommandKind.guide) t2]).gworkers = 1
       ∧ liveWorkers (sysRun env [SysOp.cmd (some CommandKind.activate) t1,
                        SysOp.cmd (some CommandKind.guide) t2]).uworkers = 1) := by
  constructor
  · intro env s t hev hsys
    simp [sysStep, handle_voice_command, hsys, start_guidance, hev, countSpawns]
  · intro env t1 t2 t3
    refine ⟨?_, ?_, ?_⟩ <;>
      simp [sysRun, sysStep, sysInit, initState, handle_voice_command,
        start_guidance, countSpawns, liveWorkers, List.replicate]

/-- C5 amended witness: the no-op part applied right after a first Guide,
at concrete inputs. -/
theorem guide_twice_single_worker_witness :
    sysStep env0 (sysRun env0 [SysOp.cmd (some CommandKind.activate) [],
                               SysOp.cmd (some CommandKind.guide) []])
        (SysOp.cmd (some CommandKind.guide) [])
      = sysRun env0 [SysOp.cmd (some CommandKind.activate) [],
                     SysOp.cmd (some CommandKind.guide) []] :=
  guide_twice_single_worker.1 env0
    (sysRun env0 [SysOp.cmd (some CommandKind.activate) [],
                  SysOp.cmd (some CommandKind.guide) []])
    [] (by decide) (by decide)

/-- C6: any command other than Activate arriving while the system is not
active is ignored: `handle_voice_command` returns the state unchanged and
performs no action. -/
theorem inactive_commands_ignored (env : Env) (s : SVGState)
    (cmd : Option CommandKind) (t : List Char)
    (hcmd : cmd ≠ some CommandKind.activate)
    (hsys : s.system_active = false) :
    handle_voice_command env s cmd t = (s, []) := by
  unfold handle_voice_command
  rw [if_neg hcmd]
  simp [hsys]

/-- C6 witness: Guide arriving in Standby leaves the state unchanged. -/
theorem inactive_commands_ignored_witness :
    handle_voice_command env0 initState (some CommandKind.guide)
      ("guide me".data) = (initState, []) :=
  inactive_commands_ignored env0 initState (some CommandKind.guide)
    ("guide me".data) (by decide) rfl

/-- Navigation result used against C7. -/
def navChair : Frame → List Char := fun _ => "Chair ahead".data

/-- C7 counterexample: a guidance cycle whose analysis returns the
non-empty, obstacle-bearing result "Chair ahead" speaks it through a
BLOCKING request (`speak(result)` with the default `block=True`), not the
non-blocking request the claim states. -/
theorem guidance_blocking_counterexample :
    guidance_cycle (some 0) navChair ≠ [⟨"Chair ahead".data, false⟩] ∧
    guidance_cycle (some 0) navChair = [⟨"Chair ahead".data, true⟩] := by
  decide

/-- C7 amended: in every guidance cycle, a non-empty analysis result
without "no obstacle" as a case-insensitive substring is spoken as a
blocking speech request (the `speak` call uses the default `block=True`);
otherwise, and on a failed capture, nothing is spoken that cycle. -/
theorem guidance_speech_filter (frame : Option Frame) (nav : Frame → List Char) :
    (∀ f, frame = some f → nav f ≠ [] →
       containsSub ("no obstacle".data) (pyLower (nav f)) = false →
       guidance_cycle frame nav = [⟨nav f, true⟩])
    ∧ (∀ f, frame = some f →
       (nav f = [] ∨ containsSub ("no obstacle".data) (pyLower (nav f)) = true) →
       guidance_cycle frame nav = [])
    ∧ (frame = none → guidance_cycle frame nav = [])
    ∧ (∀ r ∈ guidance_cycle frame nav, r.block = true) := by
  refine ⟨?_, ?_, ?_, ?_⟩
  · rintro f rfl hne hno
    simp [guidance_cycle, hno, List.isEmpty_iff, hne]
  · rintro f rfl (he | hc)
    · simp [guidance_cycle, he]
    · simp [guidance_cycle, hc]
  · rintro rfl
    rfl
  · intro r hr
    rcases frame with _ | f
    · simp [guidance_cycle] at hr
    · simp only [guidance_cycle] at hr
      split_ifs at hr with hcond
      · rcases List.mem_singleton.mp hr with rfl
        rfl
      · simp at hr

/-- C7 amended witness: the "Chair ahead" cycle under the theorem. -/
theorem guidance_speech_filter_witness :
    guidance_cycle (some 0) navChair = [⟨"Chair ahead".data, true⟩] :=
  (guidance_speech_filter (some 0) navChair).1 0 rfl (by decide) (by decide)

/-- C8 counterexample: with the previous spoken warning at t = 100 s, a
valid sample of 10 cm at t = 103 s has `d < 20` and a full 3-second
cooldown elapsed, yet the monitor does not warn (the code requires
strictly more than 3 s).  On the trace the second sample produces no
second warning even though the claim as stated (at least 3 s elapsed)
requires one. -/
theorem warning_cooldown_counterexample :
    run_ultrasonic 0 [(100, some 10), (103, some 10)] = [true, false] ∧
    (10 : ℚ) < 20 ∧ (103 : ℚ) - 100 ≥ 3 ∧
    run_ultrasonic 0 [(100, some 10), (103, some 10)] ≠ [true, true] := by
  refine ⟨?_, by norm_num, by norm_num, ?_⟩
  · simp [run_ultrasonic, ultrasonic_cycle]
    norm_num
  · intro h
    rw [show run_ultrasonic 0 [(100, some 10), (103, some 10)] = [true, false]
      by simp [run_ultrasonic, ultrasonic_cycle]; norm_num] at h
    simp at h

/-- C8 amended: in every obstacle-monitor cycle with a valid sample, a
spoken warning is emitted exactly when the distance is below 20 and
STRICTLY more than the 3-second cooldown has elapsed since the previous
spoken warning; an invalid sample neither warns nor touches the state.
Two samples with d below 20 one second apart still produce exactly one
warning and a third sample 4 seconds after the first still produces a
second warning. -/
theorem warning_cooldown_spec :
    (∀ last now d : ℚ,
       ((ultrasonic_cycle last now (some d)).2.1 = true ↔
         (d < 20 ∧ now - last > 3)))
    ∧ (∀ last now : ℚ, ultrasonic_cycle last now none = (last, false, []))
    ∧ run_ultrasonic 0 [(100, some 10), (101, some 10), (104, some 10)] =
        [true, false, true] := by
  refine ⟨?_, fun last now => rfl, ?_⟩
  · intro last now d
    simp only [ultrasonic_cycle]
    split_ifs with hcond
    · simpa using hcond
    · simpa using hcond
  · simp [run_ultrasonic, ultrasonic_cycle]
    norm_num

/-- C8 amended witness: a first sample at t = 100 s with distance 10 cm
warns, via the characterization. -/
theorem warning_cooldown_spec_witness :
    (ultrasonic_cycle 0 100 (some 10)).2.1 = true :=
  (warning_cooldown_spec.1 0 100 10).mpr (by norm_num)

/-- C9: the guidance cadence is `max(CAPTURE_INTERVAL - elapsed, 0)` and
thus never negative; with the configured interval of 3.0 s, 1.0 s of
processing leaves a 2.0 s sleep and 3.5 s of processing a zero sleep; and
the sleep happens in 100 ms slices that re-read the cancellation event, so
an event poll observing false at index k bounds the slept slices by k. -/
theorem guidance_cadence_spec :
    (∀ elapsed : ℚ, 0 ≤ guidance_sleep_time elapsed)
    ∧ guidance_sleep_time 1 = 2
    ∧ guidance_sleep_time (7/2) = 0
    ∧ (∀ (ev : ℕ → Bool) (n i k : ℕ), ev (i + k) = false →
        guidance_sleep_loop ev n i ≤ k) := by
  refine ⟨fun e => le_max_right _ _, ?_, ?_, ?_⟩
  · rw [guidance_sleep_time, CAPTURE_INTERVAL]
    norm_num
  · rw [guidance_sleep_time, CAPTURE_INTERVAL]
    norm_num
  · intro ev n
    induction n with
    | zero => intro i k _; exact Nat.zero_le k
    | succ m ih =>
      intro i k hk
      rw [guidance_sleep_loop]
      split_ifs with hev
      · cases k with
        | zero =>
          rw [Nat.add_zero] at hk
          rw [hk] at hev
          exact absurd hev (by simp)
        | succ k' =>
          have := ih (i + 1) k' (by rw [show i + 1 + k' = i + (k' + 1) by omega]; exact hk)
          omega
      · exact Nat.zero_le k

/-- C9 witness: a cleared cancellation event at the very first poll stops
the sliced sleep immediately. -/
theorem guidance_cadence_spec_witness :
    guidance_sleep_time 1 = 2 ∧
    guidance_sleep_loop (fun _ => false) 5 0 = 0 :=
  ⟨guidance_cadence_spec.2.1,
   Nat.le_zero.mp (guidance_cadence_spec.2.2.2 (fun _ => false) 5 0 0 rfl)⟩

/-- Well-formed service response whose only text content is the single
character `*`. -/
def respStar : PyVal :=
  PyVal.pdict [("choices".data,
    PyVal.plist [PyVal.pdict [("message".data,
      PyVal.pdict [("content".data,
        PyVal.plist [PyVal.pdict [("type".data, PyVal.pstr ("text".data)),
                                  ("text".data, PyVal.pstr ("*".data))]])])]])]

/-- C10 counterexample: on a successfully captured and encoded frame, a
service response whose extracted text is "*" makes `analyze_image` return
the EMPTY string — the formatting cleanup deletes every `*`, `#` and
backtick — so the calls do not always return non-empty text. -/
theorem analyze_image_empty_counterexample :
    extract_text_from_response (some respStar) = some ("*".data) ∧
    analyze_image (some 0) (fun _ => some [255]) (some respStar) = [] := by
  decide

/-- C10 amended: `analyze_image` and `chat` always return a string and
never propagate an error: a missing frame, a failed JPEG encode, and a
failed or unparsable service response each produce a fixed non-empty
apologetic fallback; on the success path the returned string is the
service text with the characters `*`, `#` and backtick removed, which can
be empty when the service text consists only of those characters. -/
theorem service_calls_return_fallbacks (frame : Option Frame)
    (encode : Frame → Option (List ℕ)) (resp : Option PyVal)
    (msg : List Char) (cframe : Option Frame) :
    (frame = none → analyze_image frame encode resp = "No image captured.".data)
    ∧ (∀ f, frame = some f → encode f = none →
        analyze_image frame encode resp = "Error processing image.".data)
    ∧ (∀ f jpeg, frame = some f → encode f = some jpeg → jpeg ≠ [] →
        extract_text_from_response resp = none →
        analyze_image frame encode resp =
          "Sorry, I couldn\x27t analyze the scene. Please try again.".data)
    ∧ (∀ f jpeg t, frame = some f → encode f = some jpeg → jpeg ≠ [] →
        extract_text_from_response resp = some t → t ≠ [] →
        analyze_image frame encode resp = cleanup_text t)
    ∧ (extract_text_from_response resp = none →
        gemini_chat msg cframe encode resp =
          "Sorry, I couldn\x27t process that. Please try again.".data)
    ∧ (∀ t, extract_text_from_response resp = some t → t ≠ [] →
        gemini_chat msg cframe encode resp = cleanup_text t)
    ∧ ("No image captured.".data ≠ [] ∧ "Error processing image.".data ≠ [] ∧
       "Sorry, I couldn\x27t analyze the scene. Please try again.".data ≠ [] ∧
       "Sorry, I couldn\x27t process that. Please try again.".data ≠ []) := by
  refine ⟨?_, ?_, ?_, ?_, ?_, ?_, by decide⟩
  · rintro rfl
    rfl
  · rintro f rfl henc
    simp [analyze_image, henc]
  · rintro f jpeg rfl henc hne hext
    simp [analyze_image, henc, hext, List.isEmpty_iff, hne]
  · rintro f jpeg t rfl henc hjne hext htne
    simp [analyze_image, henc, hext, List.isEmpty_iff, hjne, htne]
  · intro hext
    simp [gemini_chat, hext]
  · intro t hext htne
    simp [gemini_chat, hext, List.isEmpty_iff, htne]

/-- C10 amended witness: a missing frame yields the camera fallback, and a
failed response yields the spoken apology, at concrete inputs. -/
theorem service_calls_return_fallbacks_witness :
    analyze_image none (fun _ => some [255]) none = "No image captured.".data ∧
    gemini_chat ("hi".data) none (fun _ => some [255]) none =
      "Sorry, I couldn\x27t process that. Please try again.".data :=
  ⟨(service_calls_return_fallbacks none (fun _ => some [255]) none
      ("hi".data) none).1 rfl,
   (service_calls_return_fallbacks none (fun _ => some [255]) none
      ("hi".data) none).2.2.2.2.1 rfl⟩

end SVG
